import Mathlib

/-!
# Verification of the dynamo-bim-docs documentation synthesis / merge engine

Shallow embedding of the documentation engine of the `dynamo` package:

* Python strings are modelled as Lean `String`s; the Python string
  primitives used by the code (`startswith`, `endswith`, `in`, `strip`,
  `lstrip`, `rstrip`, `split(' ')`) are implemented below over `List Char`.
* Lists of lines are `List String`.
* Fallible code (`raise`) is modelled with `Except` / `Option`.
* Real-valued canvas coordinates are modelled as rationals; the code's
  Euclidean distance `sqrt ((x1-x2)^2 + (y1-y2)^2)` is represented by its
  square (`get_distance_sq`): `Real.sqrt` is strictly monotone on
  nonnegative arguments, so every comparison (`min`, `!=`, `<=`) the code
  performs on distances gives the same result on the squares, and the
  stated theorems about distances are phrased through `Real.sqrt` of the
  squared distance.

Sources embedded (file, symbol):
* `src/dynamo/utils/checks.py` — `is_blank`
* `src/dynamo/utils/values.py` — `ValueHandler.strip_*`,
  `remove_default_doc_value`, `docs_or_manual_docs`
* `src/dynamo/docs/docs.py` — `ValueHandler.manual_docs`,
  `remove_no_manual_docs`
* `src/dynamo/docs/export/org.py` — `OrgExporter.heading`, `is_heading`,
  `OrgTableCreator`, `table_ranges`, `OrgLinkCreator`
* `src/dynamo/docs/models/content.py` — `ADocContent.content`,
  `_is_content`, `AHeadlineContent._set_existing_content`,
  `_headline_value`
* `src/dynamo/docs/models/headlines.py` — `ExternalDependenciesDocs`
* `src/dynamo/docs/manual/models.py` — `DocSection`, `DocsParser`,
  `AnnotationDocs.linked_node`
* `src/dynamo/utils/geom.py` — `get_distance`
-/

/-! ## Python string primitives -/

/-- Python's notion of whitespace for `str.strip` / `str.lstrip` /
`str.rstrip` (ASCII fragment, which is all the code manipulates). -/
def isWS (c : Char) : Bool := c.isWhitespace

/-- `str.lstrip()` on the character list. -/
def lstripL (l : List Char) : List Char := l.dropWhile isWS

/-- `str.rstrip()` on the character list. -/
def rstripL (l : List Char) : List Char := (l.reverse.dropWhile isWS).reverse

/-- `str.strip()` on the character list. -/
def stripL (l : List Char) : List Char := rstripL (lstripL l)

/-- `value.strip()`. -/
def pyStrip (s : String) : String := ⟨stripL s.data⟩

/-- `value.lstrip()`. -/
def pyLstrip (s : String) : String := ⟨lstripL s.data⟩

/-- `value.rstrip()`. -/
def pyRstrip (s : String) : String := ⟨rstripL s.data⟩

/-- Boolean list-prefix test (for `str.startswith`). -/
def isPre : List Char → List Char → Bool
  | [], _ => true
  | _ :: _, [] => false
  | a :: as, b :: bs => a == b && isPre as bs

/-- `value.startswith(p)`. -/
def pyStartswith (p s : String) : Bool := isPre p.data s.data

/-- `value.endswith(p)`. -/
def pyEndswith (p s : String) : Bool := isPre p.data.reverse s.data.reverse

/-- Boolean substring test (for Python's `in` on strings). -/
def isSub (p : List Char) : List Char → Bool
  | [] => isPre p []
  | c :: rest => isPre p (c :: rest) || isSub p rest

/-- `p in value` (substring containment). -/
def pyContains (p s : String) : Bool := isSub p.data s.data

/-- Python's `str.split(sep)` for a one-character separator: splits at
every occurrence, keeping empty pieces. -/
def splitChar (sep : Char) : List Char → List (List Char)
  | [] => [[]]
  | c :: cs =>
    let r := splitChar sep cs
    if c = sep then [] :: r else (c :: r.headD []) :: r.tail

/-- `value.split(' ')`. -/
def pySplitSpace (s : String) : List String :=
  (splitChar ' ' s.data).map (fun l => ⟨l⟩)

/-! ## `dynamo.utils.checks` and the `ValueHandler` line helpers -/

/-- `checks.is_blank(value, strip=True)` for a string value:
`len(value.strip()) == 0`. -/
def is_blank_strip (s : String) : Bool := (stripL s.data).isEmpty

/-- `checks.is_blank(value)` (no strip) for a string value:
`len(value) == 0`. -/
def is_blank_nostrip (s : String) : Bool := s.data.isEmpty

/-- `ValueHandler.strip_starting_empty` (`src/dynamo/utils/values.py`):
pop index 0 while the first line is blank (`is_blank(..., strip=True)`). -/
def strip_starting_empty (lines : List String) : List String :=
  lines.dropWhile is_blank_strip

/-- `ValueHandler.strip_ending_empty`: pop index -1 while the last line is
blank. -/
def strip_ending_empty (lines : List String) : List String :=
  (lines.reverse.dropWhile is_blank_strip).reverse

/-- `ValueHandler.strip_empty`: strip at the start, then at the end. -/
def strip_empty (lines : List String) : List String :=
  strip_ending_empty (strip_starting_empty lines)

/-- `ADocContent._is_content` (`src/dynamo/docs/models/content.py`):
a single line is content iff it is non-empty *without* stripping; several
lines are content iff not all of them are blank after stripping. -/
def is_content (content : List String) : Bool :=
  match content with
  | [c] => !(is_blank_nostrip c)
  | cs => !(cs.all is_blank_strip)

/-! ## Sentinel handling (claim C2)

Two duplicate implementations exist in the repository; both are embedded.
The sentinel (`no_manual_doc` / `default_docs`) is the literal `"???"`. -/

/-- The placeholder sentinel (`"???"`). -/
def noManualDoc : String := "???"

/-- `ValueHandler.manual_docs` (`src/dynamo/docs/docs.py`, lines 108-111):
`values is None or len(values) == 0` yields the one-element sentinel list,
otherwise the lines are returned unchanged. -/
def manual_docs (values : Option (List String)) : List String :=
  match values with
  | none => [noManualDoc]
  | some vs => if vs.length = 0 then [noManualDoc] else vs

/-- `ValueHandler.remove_no_manual_docs` (`src/dynamo/docs/docs.py`,
lines 103-106): repeatedly `list.remove` the sentinel until no occurrence
is left, i.e. drop every line equal to the sentinel. -/
def remove_no_manual_docs (lines : List String) : List String :=
  lines.filter (fun l => !(l == noManualDoc))

/-- `ValueHandler.remove_default_doc_value`
(`src/dynamo/utils/values.py`, lines 119-122): same removal loop with the
same sentinel literal. -/
def remove_default_doc_value (lines : List String) : List String :=
  lines.filter (fun l => !(l == noManualDoc))

/-- `checks.is_blank` applied to an `Optional[List[str]]`: `None` is
blank, a list is blank iff empty. -/
def is_blank_opt_list (values : Option (List String)) : Bool :=
  match values with
  | none => true
  | some vs => vs.isEmpty

/-- `ValueHandler.docs_or_manual_docs` (`src/dynamo/utils/values.py`,
lines 124-127), verbatim: `if not checks.is_blank(values): return
[self.default_docs]` else `return values` — note that the blank branch
returns the incoming optional value itself (possibly `None`). -/
def docs_or_manual_docs (values : Option (List String)) :
    Option (List String) :=
  if !(is_blank_opt_list values) then some [noManualDoc] else values

/-! ## The org exporter (`src/dynamo/docs/export/org.py`) -/

/-- `OrgExporter.heading_prefix * level ++ ' ' ++ name`: the single line
emitted by `OrgExporter.heading(name, level)` (lines 137-139). -/
def heading (name : String) (level : Nat) : List String :=
  [String.mk (List.replicate level '*') ++ " " ++ name]

/-- `OrgExporter.is_heading` (lines 141-149): left-strip a leading space,
split on `' '`; a line is a heading iff it has at least two
space-separated pieces and the first piece, stripped, consists solely of
the heading marker `'*'`. -/
def is_heading (value : String) : Bool :=
  let v := if pyStartswith " " value then pyLstrip value else value
  let splitted := pySplitSpace v
  if splitted.length < 2 then false
  else
    let first := pyStrip (splitted.headD "")
    first == String.mk (List.replicate first.length '*')

/-! ## Existing-content extraction (claim C1)

`AHeadlineContent` in `src/dynamo/docs/models/content.py`. -/

/-- `AHeadlineContent._headline_value` (lines 166-170): the first line of
the heading block after dropping leading blank lines; `None` models the
`ValueError` raised when nothing is left. -/
def headline_value (lines : List String) : Option String :=
  (strip_starting_empty lines).head?

/-- The loop body of `AHeadlineContent._set_existing_content`
(lines 172-179): iterate over the previously written lines; while the
accumulator is empty, skip lines that do not start with the heading;
`break` on any line the exporter classifies as a heading; otherwise append
the right-stripped line. -/
def set_existing_content_loop (hd : String) :
    List String → List String → List String
  | [], acc => acc
  | line :: rest, acc =>
    if acc.isEmpty && !(pyStartswith hd line) then
      set_existing_content_loop hd rest acc
    else if is_heading line then acc
    else set_existing_content_loop hd rest (acc ++ [pyRstrip line])

/-- `AHeadlineContent._set_existing_content` (lines 172-179): resolve the
heading text, then run the scan over the file's previous lines starting
from the empty accumulator (`self._existing_content = []` in
`__init__`). `none` models the `ValueError` from `_headline_value`. -/
def set_existing_content (heading_lines docs : List String) :
    Option (List String) :=
  (headline_value heading_lines).map
    (fun hd => set_existing_content_loop hd docs [])

/-- `AHeadlineContent._clean_existing_content` (lines 184-187): drop the
first collected line (expected to be the heading itself), blank-trim,
remove sentinel lines. -/
def clean_existing_content (existing : List String) : List String :=
  remove_default_doc_value (strip_empty (existing.drop 1))

/-! ## The generic content template and `ExternalDependenciesDocs`
(claims C8) -/

/-- `ADocContent.content` (`src/dynamo/docs/models/content.py`,
lines 88-101), with the virtual members supplied as parameters: if
`has_content`, emit one empty line plus the blank-trimmed own body
(`_get_lines` applies `strip_empty` by default); if `_has_child_content`,
compute the blank-trimmed child block at `level + 1` and append it behind
one empty line when `_is_content` accepts it.  `exporter.empty_line()` is
`[""]`. -/
def adoc_content (has_content : Bool) (own_body : Nat → List String)
    (has_child_content : Bool) (child_body : Nat → List String)
    (level : Nat) : List String :=
  (if has_content then [""] ++ strip_empty (own_body level) else [])
  ++ (if has_child_content then
        (let cc := strip_empty (child_body (level + 1))
         if is_content cc then [""] ++ cc else [])
      else [])

/-- `ADocContent._has_child_content` (lines 107-110): false for zero
children, else `any(child.has_content())`; the children are represented by
the list of their `has_content` results. -/
def has_child_content (child_flags : List Bool) : Bool :=
  if child_flags.length = 0 then false else child_flags.any id

/-- The external dependencies of the model
(`model.get_dependencies(ExternalDependency)`); name and linked node ids
as carried by `dynamo.models.nodes.ExternalDependency`. -/
structure ExternalDependency where
  name : String
  node_ids : List String
deriving DecidableEq, Repr

/-- `ExternalDependenciesDocs.has_content`
(`src/dynamo/docs/models/headlines.py`, lines 97-98):
`len(self._externals()) > 0`. -/
def external_deps_has_content (externals : List ExternalDependency) : Bool :=
  decide (0 < externals.length)

/-- `ExternalDependenciesDocs._child_content` (lines 106-111): for each
external dependency render the child template (`_get_lines` blank-trims
each block) and concatenate. -/
def external_deps_child_content
    (child_doc : Nat → ExternalDependency → List String)
    (externals : List ExternalDependency) (level : Nat) : List String :=
  (externals.map (fun e => strip_empty (child_doc level e))).flatten

/-- `ExternalDependenciesDocs.content(level)`: the inherited
`ADocContent.content` instantiated with the overridden `has_content` and
`_child_content`; `own_body` stands for the inherited `_content`
(heading plus body — never evaluated when `has_content` is false) and
`child_flags` for the children's `has_content` results. -/
def external_deps_content (externals : List ExternalDependency)
    (own_body : Nat → List String) (child_flags : List Bool)
    (child_doc : Nat → ExternalDependency → List String)
    (level : Nat) : List String :=
  adoc_content (external_deps_has_content externals) own_body
    (has_child_content child_flags)
    (external_deps_child_content child_doc externals) level

/-! ## Section markup (`src/dynamo/docs/manual/models.py`, claims C5) -/

/-- `DocType` (lines 11-13). -/
inductive DocType where
  | HEADING
  | NODE
deriving DecidableEq, Repr

/-- `DocSection` (lines 16-36).  The dataclass compares only `title`
(`parse_value` and `doc_type` carry `compare=False`). -/
structure DocSec where
  title : String
  parse_value : String
  doc_type : DocType
deriving DecidableEq, Repr

/-- `DocSection.is_section` (lines 30-33): an empty `parse_value` never
matches; otherwise the value must both start and end with it. -/
def DocSec.is_section (s : DocSec) (value : String) : Bool :=
  if s.parse_value.length = 0 then false
  else pyStartswith s.parse_value value && pyEndswith s.parse_value value

/-- `DocSection.unknown()` (lines 18-20). -/
def unknownSec : DocSec := ⟨"UNKNOWN", "", DocType.HEADING⟩

/-- `DocSection.is_unknown` (lines 22-24): dataclass equality with
`unknown()`, which compares only the `title` field. -/
def DocSec.isUnknown (s : DocSec) : Bool := s.title == "UNKNOWN"

/-- `get_parse_value` (lines 39-40). -/
def get_parse_value (v : String) : String := ">" ++ v ++ "<"

/-- `_section` (lines 43-45); every module-level section uses the default
`doc_type=DocType.HEADING`. -/
def mkSection (title pv : String) : DocSec :=
  ⟨title, get_parse_value pv, DocType.HEADING⟩

def INFO : DocSec := mkSection "Informationen" "I"

def DESCRIPTION : DocSec := mkSection "Beschreibung" "B"

def DOCS : DocSec := mkSection "Anleitung" "D"

def INPUT : DocSec := mkSection "Eingabe" "E"

def OUTPUT : DocSec := mkSection "Ausgabe" "A"

def FILES : DocSec := mkSection "Dateien" "F"

def SOLUTION : DocSec := mkSection "Problem / Lösung" "?"

def KNOWN_WARNING : DocSec := mkSection "Warnungen" "!"

/-- `_doc_sections()` (lines 58-60): the module-level `DocSection`
instances, in definition order. -/
def docSections : List DocSec :=
  [INFO, DESCRIPTION, DOCS, INPUT, OUTPUT, FILES, SOLUTION, KNOWN_WARNING]

/-- `_get_doc_heading` (lines 63-69): strip the line, return the first
section whose `is_section` accepts it, else `unknown()`. -/
def get_doc_heading (line : String) : DocSec :=
  (docSections.find? (fun s => s.is_section (pyStrip line))).getD unknownSec

/-- The scan of `DocsParser._parse` (lines 85-92): the first line index
whose `_get_doc_heading` is not unknown, together with that section;
`none` models `_start_idx == -1` / `_section == unknown`. -/
def docs_parse_from (i : Nat) : List String → Option (Nat × DocSec)
  | [] => none
  | l :: ls =>
    let s := get_doc_heading l
    if s.isUnknown then docs_parse_from (i + 1) ls else some (i, s)

/-- `DocsParser._parse` run on the `splitlines` of the node description. -/
def docs_parse (lines : List String) : Option (Nat × DocSec) :=
  docs_parse_from 0 lines

/-- `DocsParser.has_section` (lines 97-98). -/
def has_section (lines : List String) : Bool := (docs_parse lines).isSome

/-- `DocsParser.content` (lines 120-122): the lines after the marker line
(`_start_idx + 1`; `_start_idx = -1` when no section was found),
blank-trimmed by `strip_empty`. -/
def docs_parser_content (lines : List String) : List String :=
  match docs_parse lines with
  | some (i, _) => strip_empty (lines.drop (i + 1))
  | none => strip_empty lines

/-! ## The org table (`src/dynamo/docs/export/org.py`, claim C7)

Cell values are modelled as strings (`str(value)` is the identity on
them), which is the type the claims exercise. -/

/-- `OrgLinkCreator.is_link` (lines 11-13): `'][' in value`. -/
def is_link (value : String) : Bool := pyContains "][" value

/-- `string.clean_value` (`src/dynamo/utils/string.py`, lines 39-42):
replace each listed token and strip. -/
def clean_value (value : String) : String :=
  pyStrip ((((((((value.replace "%" "").replace "[" "").replace "]" "").replace
    "&" "").replace "ꟿ" "").replace "(" "").replace ")" "").replace "." "-")

/-- `OrgLinkCreator.link_values` (lines 15-21): split on `']['`, clean
each piece, return the first piece and the optional second. -/
def link_values (value : String) : String × Option String :=
  match (value.splitOn "][").map clean_value with
  | [] => ("", none)
  | a :: rest => (a, rest.head?)

/-- `OrgTableCreator._cell_without_link` (lines 56-61). -/
def cell_without_link (value : String) : String :=
  let cell :=
    if is_link value then
      match link_values value with
      | (link, none) => link
      | (_, some display) => display
    else value
  pyStrip cell

/-- `OrgTableCreator._column_sizes` (lines 63-72) expressed per column:
start from 0, raise to the heading's length when a heading exists at that
index, then raise over the rows' `cell_without_link` lengths. -/
def column_size (headings : Option (List String))
    (rows : List (List String)) (idx : Nat) : Nat :=
  let base :=
    match headings with
    | some hs => match hs.get? idx with
      | some h => h.length
      | none => 0
    | none => 0
  rows.foldl (fun acc r =>
    match r.get? idx with
    | some c => max acc (cell_without_link c).length
    | none => acc) base

/-- `OrgTableCreator._get_cell` (lines 74-79): strip the cell, pad with
spaces to the column size measured on `cell_without_link`, wrap in single
spaces (Python's `' ' * n` is empty for negative `n`, as is `Nat`
subtraction). -/
def get_cell (headings : Option (List String)) (rows : List (List String))
    (cell : String) (idx : Nat) : String :=
  let c := pyStrip cell
  let wl := cell_without_link c
  " " ++ c ++ String.mk (List.replicate (column_size headings rows idx - wl.length) ' ') ++ " "

/-- `OrgTableCreator._get_row` (lines 81-82): wrap in the column
separator `'|'`. -/
def get_row (value : String) : String := "|" ++ value ++ "|"

/-- `OrgTableCreator._create_row` (lines 84-87). -/
def create_row (headings : Option (List String))
    (rows : List (List String)) (values : List String) : String :=
  get_row (String.intercalate "|"
    (values.enum.map (fun p => get_cell headings rows p.2 p.1)))

/-- `OrgTableCreator._create_horizontal_line` (lines 89-96): one dash per
character of each rendered heading cell, joined by `'+'`. -/
def create_horizontal_line (headings : Option (List String))
    (rows : List (List String)) (hs : List String) : String :=
  get_row (String.intercalate "+"
    (hs.enum.map (fun p =>
      String.mk (List.replicate (get_cell headings rows p.2 p.1).length '-'))))

/-- `OrgTableCreator.create` / `OrgExporter.as_table` (lines 98-105,
185-187): header row and separator row when a non-empty heading list is
given, then one row per data row. -/
def as_table (headings : Option (List String))
    (rows : List (List String)) : List String :=
  (match headings with
   | some hs =>
     if 0 < hs.length then
       [create_row headings rows hs, create_horizontal_line headings rows hs]
     else []
   | none => [])
  ++ rows.map (create_row headings rows)

/-- The scan of `OrgExporter._table_end` over the suffix `lines[i:]`,
carrying the running index: continue past lines starting with `'|'`,
return the index of the first line that does not. -/
def table_end_aux : Nat → List String → Nat
  | idx, [] => idx
  | idx, l :: rest =>
    if pyStartswith "|" l then table_end_aux (idx + 1) rest else idx

/-- `OrgExporter._table_end` (lines 189-194): the first index at or after
`i` whose line does not start with `'|'`, else `len(lines)` (Python's
`for idx in range(start_index, len(lines))` with a `return len(lines)`
fallthrough). -/
def table_end (lines : List String) (i : Nat) : Nat :=
  if lines.length ≤ i then lines.length else table_end_aux i (lines.drop i)

/-- The loop of `OrgExporter.table_ranges` (lines 196-207).  The Python
loop does not terminate when a recognized table start (`lstrip` begins
with `'|'`) does not itself start with `'|'` (then `_table_end` returns
the same index); the fuel models that: `none` means the loop would spin
forever.  When every processed line starts with `'|'` outright, each step
advances `idx`, so `lines.length + 1` fuel always suffices. -/
def table_ranges_loop (lines : List String) :
    Nat → Nat → List (Nat × Nat) → Option (List (Nat × Nat))
  | 0, _, _ => none
  | fuel + 1, idx, acc =>
    if h : idx < lines.length then
      if !(pyStartswith "|" (pyLstrip (lines.get ⟨idx, h⟩))) then
        table_ranges_loop lines fuel (idx + 1) acc
      else
        let e := table_end lines idx
        table_ranges_loop lines fuel e (acc ++ [(idx, e)])
    else some acc

/-- `OrgExporter.table_ranges`. -/
def table_ranges (lines : List String) : Option (List (Nat × Nat)) :=
  table_ranges_loop lines (lines.length + 1) 0 []

/-! ## The node–annotation linker
(`src/dynamo/docs/manual/models.py`, lines 138-160, and
`src/dynamo/utils/geom.py`; claims C3, C4, C9, C10) -/

/-- A graph node as used by the linker: stable identity plus canvas
coordinates (`IModelWithId` with `x`, `y`). -/
structure GNode where
  node_id : Nat
  x : ℚ
  y : ℚ
deriving DecidableEq, Repr

/-- The annotation node carried by the `DocsParser` (`self._parser.node`):
only its canvas coordinates enter `linked_node`. -/
structure Annot where
  x : ℚ
  y : ℚ
deriving DecidableEq, Repr

/-- The square of `geom.get_distance(point, other)`
(`src/dynamo/utils/geom.py`, lines 6-8):
`(point.x - other.x)**2 + (point.y - other.y)**2`.  The code takes
`math.sqrt` of this; the square root is strictly monotone on nonnegative
reals, so the `min` / `!=` comparisons `linked_node` performs on the
distances coincide with the same comparisons on these squares. -/
def get_distance_sq (point : GNode) (other : Annot) : ℚ :=
  (point.x - other.x) * (point.x - other.x)
    + (point.y - other.y) * (point.y - other.y)

/-- Errors raised by `AnnotationDocs.linked_node`:
`ValueError(f'{DocType.HEADING} is not allowed')` and
`AttributeError(f'No cloeset Node found for {self.content}')` — note that
the latter interpolates the *bound `content` method object*
(`self.content` is never called), not the annotation's text. -/
inductive LinkError where
  | headingNotAllowed
  | noClosestNode
deriving DecidableEq, Repr

/-- Python's built-in `min(a, b)`: the first argument when the two
compare equal. -/
def pymin (a b : ℚ) : ℚ := if a ≤ b then a else b

/-- One iteration of the loop in `AnnotationDocs.linked_node`
(lines 149-157): with state `(distance, closest)`,
`if distance is None: distance = node_distance`;
`distance = min(node_distance, distance)`;
`if distance != node_distance: continue`; `self._closest = node`. -/
def linked_step (ann : Annot) (s : Option ℚ × Option GNode) (node : GNode) :
    Option ℚ × Option GNode :=
  let node_distance := get_distance_sq node ann
  let d0 := s.1.getD node_distance
  let distance := pymin node_distance d0
  if distance ≠ node_distance then (some distance, s.2)
  else (some distance, some node)

/-- The full loop `for node in self.file.model.nodes`, starting from
`distance = None` and `self._closest = None`. -/
def linked_fold (ann : Annot) (nodes : List GNode) :
    Option ℚ × Option GNode :=
  nodes.foldl (linked_step ann) (none, none)

/-- `AnnotationDocs.linked_node` (lines 144-160): return the cached
`_closest` when set; otherwise raise on a `HEADING`-typed parser, run the
loop, raise when no node was selected, and cache plus return the result.
The returned pair carries the node together with the `_closest` cache
state after the call. -/
def linked_node (cached : Option GNode) (doc_type : DocType)
    (nodes : List GNode) (ann : Annot) :
    Except LinkError (GNode × Option GNode) :=
  match cached with
  | some n => Except.ok (n, some n)
  | none =>
    if doc_type = DocType.HEADING then Except.error LinkError.headingNotAllowed
    else
      match (linked_fold ann nodes).2 with
      | none => Except.error LinkError.noClosestNode
      | some c => Except.ok (c, some c)

/-! ## Helper lemmas on the string primitives -/

lemma string_data_append (s t : String) : (s ++ t).data = s.data ++ t.data := rfl

lemma isPre_iff : ∀ (p l : List Char), isPre p l = true ↔ ∃ t, l = p ++ t := by
  intro p
  induction p with
  | nil =>
    intro l
    simp [isPre]
  | cons a as ih =>
    intro l
    cases l with
    | nil => simp [isPre]
    | cons b bs =>
      simp only [isPre, Bool.and_eq_true, beq_iff_eq, ih bs, List.cons_append]
      constructor
      · rintro ⟨rfl, t, rfl⟩
        exact ⟨t, rfl⟩
      · rintro ⟨t, h⟩
        injection h with h1 h2
        exact ⟨h1.symm, t, h2⟩

lemma splitChar_ne_nil (sep : Char) (l : List Char) : splitChar sep l ≠ [] := by
  cases l with
  | nil => simp [splitChar]
  | cons c cs =>
    simp only [splitChar]
    split <;> simp

lemma splitChar_sep_cons (sep : Char) (l : List Char) :
    splitChar sep (sep :: l) = [] :: splitChar sep l := by
  simp [splitChar]

lemma splitChar_cons_of_ne {c sep : Char} (h : c ≠ sep) (l : List Char) :
    splitChar sep (c :: l) =
      (c :: (splitChar sep l).headD []) :: (splitChar sep l).tail := by
  simp [splitChar, h]

lemma splitChar_append (sep : Char) (xs ys : List Char) (h : sep ∉ xs) :
    splitChar sep (xs ++ sep :: ys) = xs :: splitChar sep ys := by
  induction xs with
  | nil => simp [splitChar_sep_cons]
  | cons c cs ih =>
    have hc : c ≠ sep := fun e => h (by simp [e])
    have hcs : sep ∉ cs := fun m => h (List.mem_cons_of_mem _ m)
    rw [List.cons_append, splitChar_cons_of_ne hc, ih hcs]
    simp

lemma dropWhile_replicate_star (n : Nat) :
    List.dropWhile isWS (List.replicate n '*') = List.replicate n '*' := by
  cases n with
  | zero => rfl
  | succ m =>
    rw [List.replicate_succ, List.dropWhile_cons]
    simp [isWS]

lemma stripL_replicate_star (n : Nat) :
    stripL (List.replicate n '*') = List.replicate n '*' := by
  rw [stripL, lstripL, rstripL, dropWhile_replicate_star, List.reverse_replicate,
    dropWhile_replicate_star, List.reverse_replicate]

lemma stripL_eq_nil_ws {l : List Char} (hl : stripL l = []) :
    ∀ c ∈ l, isWS c = true := by
  intro c hc
  have h2 : List.dropWhile isWS (lstripL l).reverse = [] := by
    have := congrArg List.reverse hl
    simpa [stripL, rstripL] using this
  have hdrop : ∀ x ∈ lstripL l, isWS x = true := by
    intro x hx
    exact (List.dropWhile_eq_nil_iff.mp h2) x (List.mem_reverse.mpr hx)
  rcases List.mem_append.mp
    (by rw [@List.takeWhile_append_dropWhile _ isWS l]; exact hc) with
    htake | hdrop2
  · exact List.mem_takeWhile_imp htake
  · exact hdrop c hdrop2

lemma is_blank_strip_false {line : String} {c : Char} (hc : c ∈ line.data)
    (hws : isWS c = false) : is_blank_strip line = false := by
  rw [is_blank_strip]
  cases hE : (stripL line.data).isEmpty
  · rfl
  · exact absurd (stripL_eq_nil_ws (List.isEmpty_iff.mp hE) c hc)
      (by simp [hws])

/-! ## Heading recognition lemmas (claims C6, C1) -/

lemma not_space_mem_replicate_star (n : Nat) :
    (' ' : Char) ∉ List.replicate n '*' := by
  intro hm
  rw [List.mem_replicate] at hm
  exact absurd hm.2 (by decide)

lemma is_heading_of_data {line : String} {level : Nat} (hlv : 1 ≤ level)
    {rest : List Char}
    (hdata : line.data = List.replicate level '*' ++ ' ' :: rest) :
    is_heading line = true := by
  obtain ⟨m, rfl⟩ : ∃ m, level = m + 1 :=
    ⟨level - 1, (Nat.succ_pred_eq_of_pos hlv).symm⟩
  have hsw : pyStartswith " " line = false := by
    have h1 : (" " : String).data = [' '] := rfl
    rw [pyStartswith, h1, hdata, List.replicate_succ, List.cons_append]
    simp [isPre, show ((' ' == '*') = false) from by decide]
  have hsplit : pySplitSpace line =
      (⟨List.replicate (m + 1) '*'⟩ : String) ::
        (splitChar ' ' rest).map (fun l => (⟨l⟩ : String)) := by
    rw [pySplitSpace, hdata,
      splitChar_append ' ' _ _ (not_space_mem_replicate_star (m + 1))]
    simp
  have hpos : 0 < (splitChar ' ' rest).length :=
    List.length_pos.mpr (splitChar_ne_nil ' ' rest)
  rw [is_heading]
  simp only [hsw, Bool.false_eq_true, if_false, hsplit]
  rw [if_neg (by simp [List.length_map]; omega)]
  have hfirst : pyStrip (((⟨List.replicate (m + 1) '*'⟩ : String) ::
      (splitChar ' ' rest).map (fun l => (⟨l⟩ : String))).headD "") =
      (⟨List.replicate (m + 1) '*'⟩ : String) := by
    simp [pyStrip, stripL_replicate_star]
  rw [hfirst]
  have hlen : ((⟨List.replicate (m + 1) '*'⟩ : String)).length = m + 1 := by
    simp [String.length]
  rw [hlen]
  simp

lemma heading_data (name : String) (level : Nat) :
    ((⟨List.replicate level '*'⟩ : String) ++ " " ++ name).data =
      List.replicate level '*' ++ ' ' :: name.data := by
  rw [string_data_append, string_data_append]
  simp

/-- C6.  Heading round-trip classification: for every heading name and
every level ≥ 1, `heading(name, level)` emits exactly one line and
`is_heading` classifies that line as a heading; and `is_heading` rejects a
body line whose first space-separated token is not made solely of the
marker character, e.g. `'*bold* text'`. -/
theorem c6_heading_roundtrip (name : String) (level : Nat) (h : 1 ≤ level) :
    (heading name level).length = 1 ∧
    (∀ line ∈ heading name level, is_heading line = true) ∧
    is_heading "*bold* text" = false := by
  refine ⟨rfl, ?_, by decide⟩
  intro line hline
  rw [heading, List.mem_singleton] at hline
  subst hline
  exact is_heading_of_data h (heading_data name level)

/-- Witness for C6 at `name = "Titel"`, `level = 3`. -/
theorem c6_heading_roundtrip_witness :
    (heading "Titel" 3).length = 1 ∧
    (∀ line ∈ heading "Titel" 3, is_heading line = true) ∧
    is_heading "*bold* text" = false :=
  c6_heading_roundtrip "Titel" 3 (by decide)

/-! ## Claim C1: the existing-content scan -/

lemma is_heading_of_startswith_heading {name : String} {level : Nat}
    (h : 1 ≤ level) {line : String}
    (hsw : pyStartswith ((⟨List.replicate level '*'⟩ : String) ++ " " ++ name)
      line = true) : is_heading line = true := by
  obtain ⟨t, ht⟩ := (isPre_iff _ _).mp hsw
  refine @is_heading_of_data _ _ h (name.data ++ t) ?_
  rw [ht, heading_data]
  simp

lemma set_existing_content_loop_nil {hd : String}
    (hhd : ∀ l, pyStartswith hd l = true → is_heading l = true) :
    ∀ docs, set_existing_content_loop hd docs [] = [] := by
  intro docs
  induction docs with
  | nil => rfl
  | cons line rest ih =>
    by_cases hsw : pyStartswith hd line = true
    · simp [set_existing_content_loop, hsw, hhd line hsw]
    · rw [Bool.not_eq_true] at hsw
      simp [set_existing_content_loop, hsw, ih]

lemma headline_value_heading (name : String) (level : Nat) (h : 1 ≤ level) :
    headline_value (heading name level) =
      some ((⟨List.replicate level '*'⟩ : String) ++ " " ++ name) := by
  have hblank :
      is_blank_strip ((⟨List.replicate level '*'⟩ : String) ++ " " ++ name)
        = false := by
    refine @is_blank_strip_false _ '*' ?_ (by decide)
    rw [heading_data]
    obtain ⟨m, rfl⟩ : ∃ m, level = m + 1 :=
      ⟨level - 1, (Nat.succ_pred_eq_of_pos h).symm⟩
    simp [List.replicate_succ]
  rw [headline_value, heading, strip_starting_empty, List.dropWhile_cons,
    if_neg (by simp [hblank])]
  rfl

/-- C1.  Manual-text recovery by `_set_existing_content` /
`_manual_docs`: for every heading emitted by `OrgExporter.heading` at any
level ≥ 1, the scan over the previously written lines collects *nothing*
— the matched heading line itself is classified as a heading by
`exporter.is_heading`, so the `elif` breaks the loop before anything is
appended.  In particular, for the spec's example file
`["** Heading X", "", "Author's hand-written paragraph", "", "** Heading Y"]`
the recovered block is empty (the author's paragraph is lost), and the
cleaned manual text is empty as well — not the paragraph the claim
requires. -/
theorem c1_existing_content_always_empty (name : String) (level : Nat)
    (h : 1 ≤ level) (docs : List String) :
    set_existing_content (heading name level) docs = some [] ∧
    set_existing_content (heading "Heading X" 2)
      ["** Heading X", "", "Author's hand-written paragraph", "",
        "** Heading Y"] = some [] ∧
    clean_existing_content [] = [] := by
  have key : ∀ (nm : String) (lv : Nat), 1 ≤ lv → ∀ ds : List String,
      set_existing_content (heading nm lv) ds = some [] := by
    intro nm lv hlv ds
    rw [set_existing_content, headline_value_heading nm lv hlv]
    simp only [Option.map_some']
    rw [set_existing_content_loop_nil
      (fun l hl => is_heading_of_startswith_heading hlv hl) ds]
  exact ⟨key name level h docs, key "Heading X" 2 (by decide) _, rfl⟩

/-- Witness for C1 at the spec's own example. -/
theorem c1_existing_content_always_empty_witness :
    set_existing_content (heading "Heading X" 2)
      ["** Heading X", "", "Author's hand-written paragraph", "",
        "** Heading Y"] = some [] ∧
    clean_existing_content [] = [] := by
  have := c1_existing_content_always_empty "Heading X" 2 (by decide)
    ["** Heading X", "", "Author's hand-written paragraph", "",
      "** Heading Y"]
  exact ⟨this.1, this.2.2⟩

/-! ## Claim C2: sentinel substitution -/

/-- C2.  Evaluation of both sentinel-or-text duplicates on the decisive
inputs: `docs_or_manual_docs` (`src/dynamo/utils/values.py`) returns the
empty list unchanged for an empty input and `None` for `None` — and
substitutes the sentinel for *non-empty* input — while its duplicate
`manual_docs` (`src/dynamo/docs/docs.py`) behaves as the claim states
(sentinel exactly when the input is empty or `None`, lines unchanged
otherwise) and satisfies the sentinel round-trip through the stripping
function. -/
theorem c2_sentinel_substitution_eval :
    docs_or_manual_docs (some []) = some [] ∧
    docs_or_manual_docs none = none ∧
    docs_or_manual_docs (some ["abc"]) = some [noManualDoc] ∧
    manual_docs (some []) = [noManualDoc] ∧
    manual_docs (some ["abc"]) = ["abc"] ∧
    manual_docs none = [noManualDoc] ∧
    remove_no_manual_docs [noManualDoc] = [] ∧
    manual_docs (some (remove_no_manual_docs [noManualDoc])) =
      [noManualDoc] ∧
    remove_default_doc_value [noManualDoc] = [] ∧
    docs_or_manual_docs (some (remove_default_doc_value [noManualDoc])) =
      some [] := by
  decide

/-! ## Claim C5: section marker scanning -/

/-- C5 counterexample: the line `">B< some text"` begins with the section
marker `">B<"`, yet the parser reports no section, because
`DocSection.is_section` also requires the stripped line to *end* with the
marker. -/
theorem c5_counterexample_startswith_only :
    pyStartswith ">B<" ">B< some text" = true ∧
    has_section [">B< some text"] = false := by
  decide

lemma docSections_not_unknown : ∀ sec ∈ docSections, sec.isUnknown = false := by
  decide

lemma unknownSec_isUnknown : unknownSec.isUnknown = true := by decide

lemma docs_parse_from_spec :
    ∀ (lines : List String) (k i : Nat) (s : DocSec),
      docs_parse_from k lines = some (i, s) →
      k ≤ i ∧ i - k < lines.length ∧
      (∃ l, lines.get? (i - k) = some l ∧ get_doc_heading l = s ∧
        s.isUnknown = false) ∧
      (∀ j, j < i - k → ∀ l', lines.get? j = some l' →
        (get_doc_heading l').isUnknown = true) := by
  intro lines
  induction lines with
  | nil =>
    intro k i s h
    exact absurd h (by simp [docs_parse_from])
  | cons l ls ih =>
    intro k i s h
    rw [docs_parse_from] at h
    by_cases hu : (get_doc_heading l).isUnknown = true
    · rw [if_pos hu] at h
      obtain ⟨hk, hlt, ⟨l', hget, hgd, hunk⟩, hbefore⟩ := ih (k + 1) i s h
      have hik : i - k = (i - (k + 1)) + 1 := by omega
      refine ⟨by omega, by simp; omega, ⟨l', ?_, hgd, hunk⟩, ?_⟩
      · rw [hik]
        simpa using hget
      · intro j hj l'' hget''
        cases j with
        | zero =>
          simp at hget''
          subst hget''
          exact hu
        | succ j' =>
          have : j' < i - (k + 1) := by omega
          exact hbefore j' this l'' (by simpa using hget'')
    · rw [if_neg hu] at h
      injection h with h1
      injection h1 with hik hs
      subst hik
      subst hs
      refine ⟨le_refl k, by simp, ⟨l, by simp, rfl, ?_⟩, ?_⟩
      · exact Bool.not_eq_true _ ▸ (Bool.eq_false_iff.mpr hu)
      · intro j hj
        omega

lemma get_doc_heading_not_unknown {l : String}
    (h : (get_doc_heading l).isUnknown = false) :
    ∃ sec ∈ docSections, sec.is_section (pyStrip l) = true ∧
      get_doc_heading l = sec := by
  rw [get_doc_heading] at *
  cases hf : docSections.find? (fun s => s.is_section (pyStrip l)) with
  | none =>
    rw [hf] at h
    exact absurd (unknownSec_isUnknown) (by simp [Option.getD] at h; simp [h])
  | some sec =>
    exact ⟨sec, List.mem_of_find?_eq_some hf, by simpa using List.find?_some hf,
      by simp⟩

lemma get_doc_heading_unknown {l : String}
    (h : (get_doc_heading l).isUnknown = true) :
    ∀ sec ∈ docSections, sec.is_section (pyStrip l) = false := by
  intro sec hmem
  cases hf : docSections.find? (fun s => s.is_section (pyStrip l)) with
  | none =>
    have := List.find?_eq_none.mp hf sec hmem
    simpa using this
  | some sec' =>
    have : get_doc_heading l = sec' := by rw [get_doc_heading, hf]; rfl
    rw [this] at h
    exact absurd h (by simp [docSections_not_unknown sec'
      (List.mem_of_find?_eq_some hf)])

/-- C5 amended.  A line is a section marker line only when its
whitespace-stripped form both *starts and ends* with one of the fixed
markers; the first such line (top to bottom) becomes the section start,
every line before it carries no marker, and the section body consists of
the blank-trimmed lines strictly after the marker line. -/
theorem c5_amended_marker_scan (lines : List String) (i : Nat) (s : DocSec)
    (h : docs_parse lines = some (i, s)) :
    has_section lines = true ∧
    (∃ l, lines.get? i = some l ∧
      ∃ sec ∈ docSections, sec.is_section (pyStrip l) = true) ∧
    (∀ j, j < i → ∀ l', lines.get? j = some l' →
      ∀ sec ∈ docSections, sec.is_section (pyStrip l') = false) ∧
    docs_parser_content lines = strip_empty (lines.drop (i + 1)) := by
  obtain ⟨hk, hlt, ⟨l, hget, hgd, hunk⟩, hbefore⟩ :=
    docs_parse_from_spec lines 0 i s h
  rw [Nat.sub_zero] at hget hbefore hlt
  refine ⟨?_, ⟨l, hget, ?_⟩, ?_, ?_⟩
  · rw [has_section, h]
    rfl
  · obtain ⟨sec, hmem, hsec, _⟩ :=
      @get_doc_heading_not_unknown l (by rw [hgd]; exact hunk)
    exact ⟨sec, hmem, hsec⟩
  · intro j hj l' hget'
    exact get_doc_heading_unknown (hbefore j hj l' hget')
  · rw [docs_parser_content, h]

/-- Witness for C5's amended statement at a concrete annotation text. -/
theorem c5_amended_marker_scan_witness :
    has_section ["junk", ">B< Titel >B<", "inhalt"] = true ∧
    (∃ l, ["junk", ">B< Titel >B<", "inhalt"].get? 1 = some l ∧
      ∃ sec ∈ docSections, sec.is_section (pyStrip l) = true) ∧
    (∀ j, j < 1 → ∀ l', ["junk", ">B< Titel >B<", "inhalt"].get? j = some l' →
      ∀ sec ∈ docSections, sec.is_section (pyStrip l') = false) ∧
    docs_parser_content ["junk", ">B< Titel >B<", "inhalt"] =
      strip_empty (["junk", ">B< Titel >B<", "inhalt"].drop 2) :=
  c5_amended_marker_scan ["junk", ">B< Titel >B<", "inhalt"] 1 DESCRIPTION
    (by decide)

lemma linked_fold_append (ann : Annot) (l : List GNode) (n : GNode) :
    linked_fold ann (l ++ [n]) = linked_step ann (linked_fold ann l) n := by
  simp [linked_fold, List.foldl_append]

/-- Full characterization of the selection loop: on a non-empty node
list, the final state carries the minimum (squared) distance, and the
selected node is the *last* node in enumeration order attaining that
minimum (a later node overwrites `_closest` whenever its distance ties
the running minimum, because `min(node_distance, distance) ==
node_distance` then holds). -/
lemma linked_fold_char (ann : Annot) :
    ∀ l : List GNode, l ≠ [] →
      ∃ c : GNode,
        linked_fold ann l = (some (get_distance_sq c ann), some c) ∧
        c ∈ l ∧
        (∀ x ∈ l, get_distance_sq c ann ≤ get_distance_sq x ann) ∧
        (l.filter (fun x =>
          decide (get_distance_sq x ann = get_distance_sq c ann))).getLast?
          = some c := by
  intro l
  induction l using List.reverseRecOn with
  | nil => intro h; exact absurd rfl h
  | append_singleton l n ih =>
    intro _
    by_cases hl : l = []
    · subst hl
      refine ⟨n, ?_, by simp, by simp, by simp⟩
      simp [linked_fold, linked_step, pymin]
    · obtain ⟨c, hfold, hmem, hmin, hlast⟩ := ih hl
      have happ := linked_fold_append ann l n
      rw [hfold] at happ
      by_cases hle : get_distance_sq n ann ≤ get_distance_sq c ann
      · have hstep : linked_step ann
            (some (get_distance_sq c ann), some c) n =
            (some (get_distance_sq n ann), some n) := by
          simp [linked_step, pymin, hle]
        refine ⟨n, by rw [happ, hstep], by simp, ?_, ?_⟩
        · intro x hx
          rcases List.mem_append.mp hx with hx | hx
          · exact le_trans hle (hmin x hx)
          · simp at hx
            subst hx
            exact le_refl _
        · rw [List.filter_append]
          have hfn : List.filter (fun x =>
              decide (get_distance_sq x ann = get_distance_sq n ann)) [n]
              = [n] := by simp
          rw [hfn]
          exact List.getLast?_concat _
      · have hlt : get_distance_sq c ann < get_distance_sq n ann :=
          lt_of_not_le hle
        have hstep : linked_step ann
            (some (get_distance_sq c ann), some c) n =
            (some (get_distance_sq c ann), some c) := by
          have hne : get_distance_sq c ann ≠ get_distance_sq n ann :=
            ne_of_lt hlt
          simp [linked_step, pymin, hle, hne]
        refine ⟨c, by rw [happ, hstep], List.mem_append_left _ hmem, ?_, ?_⟩
        · intro x hx
          rcases List.mem_append.mp hx with hx | hx
          · exact hmin x hx
          · simp at hx
            subst hx
            exact le_of_lt hlt
        · rw [List.filter_append]
          have hfn : List.filter (fun x =>
              decide (get_distance_sq x ann = get_distance_sq c ann)) [n]
              = [] := by
            simp [ne_of_gt hlt]
          rw [hfn, List.append_nil]
          exact hlast

lemma linked_node_ok_of_nonempty (nodes : List GNode) (ann : Annot)
    (h : nodes ≠ []) :
    ∃ c : GNode,
      linked_node none DocType.NODE nodes ann = Except.ok (c, some c) ∧
      c ∈ nodes ∧
      (∀ x ∈ nodes, get_distance_sq c ann ≤ get_distance_sq x ann) ∧
      (nodes.filter (fun x =>
        decide (get_distance_sq x ann = get_distance_sq c ann))).getLast?
        = some c := by
  obtain ⟨c, hfold, hmem, hmin, hlast⟩ := linked_fold_char ann nodes h
  refine ⟨c, ?_, hmem, hmin, hlast⟩
  simp only [linked_node]
  rw [if_neg (by decide), hfold]

/-- C3.  Nearest-node resolution: on a non-empty node list, a node-scoped
annotation is linked to a node whose Euclidean distance
`sqrt ((x1-x2)^2 + (y1-y2)^2)` is ≤ that of every node of the file; in
particular, with nodes at `(0,0)` and `(10,0)`, an annotation at `(1,0)`
links to the node at `(0,0)` and the same annotation at `(9,0)` links to
the node at `(10,0)`. -/
theorem c3_nearest_node_resolution (nodes : List GNode) (ann : Annot)
    (h : nodes ≠ []) :
    (∃ c : GNode,
      linked_node none DocType.NODE nodes ann = Except.ok (c, some c) ∧
      c ∈ nodes ∧
      ∀ x ∈ nodes,
        Real.sqrt ((get_distance_sq c ann : ℚ) : ℝ) ≤
          Real.sqrt ((get_distance_sq x ann : ℚ) : ℝ)) ∧
    linked_node none DocType.NODE [⟨1, 0, 0⟩, ⟨2, 10, 0⟩] ⟨1, 0⟩ =
      Except.ok (⟨1, 0, 0⟩, some ⟨1, 0, 0⟩) ∧
    linked_node none DocType.NODE [⟨1, 0, 0⟩, ⟨2, 10, 0⟩] ⟨9, 0⟩ =
      Except.ok (⟨2, 10, 0⟩, some ⟨2, 10, 0⟩) := by
  refine ⟨?_, ?_, ?_⟩
  · obtain ⟨c, hok, hmem, hmin, _⟩ := linked_node_ok_of_nonempty nodes ann h
    refine ⟨c, hok, hmem, fun x hx => ?_⟩
    exact Real.sqrt_le_sqrt (by exact_mod_cast hmin x hx)
  · norm_num [linked_node, linked_fold, linked_step, get_distance_sq, pymin]
    intro hc
    exact absurd hc (by decide)
  · norm_num [linked_node, linked_fold, linked_step, get_distance_sq, pymin]
    intro hc
    exact absurd hc (by decide)

/-- Witness for C3: the two concrete resolutions from the claim. -/
theorem c3_nearest_node_resolution_witness :
    linked_node none DocType.NODE [⟨1, 0, 0⟩, ⟨2, 10, 0⟩] ⟨1, 0⟩ =
      Except.ok (⟨1, 0, 0⟩, some ⟨1, 0, 0⟩) ∧
    linked_node none DocType.NODE [⟨1, 0, 0⟩, ⟨2, 10, 0⟩] ⟨9, 0⟩ =
      Except.ok (⟨2, 10, 0⟩, some ⟨2, 10, 0⟩) :=
  ⟨(c3_nearest_node_resolution [⟨1, 0, 0⟩, ⟨2, 10, 0⟩] ⟨1, 0⟩
      (by simp)).2.1,
    (c3_nearest_node_resolution [⟨1, 0, 0⟩, ⟨2, 10, 0⟩] ⟨1, 0⟩
      (by simp)).2.2⟩

/-- C4 counterexample: the nodes at `(1,0)` and `(-1,0)` are equidistant
from the annotation at `(0,0)`; the claim says the *first* of them (the
node at `(1,0)`) is linked, but `linked_node` returns the *second*
(`min(node_distance, distance) == node_distance` also holds on a tie, so
a later equidistant node overwrites `_closest`). -/
theorem c4_counterexample_first_loses :
    get_distance_sq ⟨1, 1, 0⟩ ⟨0, 0⟩ = get_distance_sq ⟨2, -1, 0⟩ ⟨0, 0⟩ ∧
    (⟨1, 1, 0⟩ : GNode) ≠ ⟨2, -1, 0⟩ ∧
    linked_node none DocType.NODE [⟨1, 1, 0⟩, ⟨2, -1, 0⟩] ⟨0, 0⟩ =
      Except.ok (⟨2, -1, 0⟩, some ⟨2, -1, 0⟩) := by
  refine ⟨by norm_num [get_distance_sq], by decide, ?_⟩
  norm_num [linked_node, linked_fold, linked_step, get_distance_sq, pymin]
  intro hc
  exact absurd hc (by decide)

/-- C4 amended.  Tie-breaking in nearest-node resolution: when several
nodes attain the minimal Euclidean distance to the annotation,
`linked_node` returns the *last* of those equidistant nodes in the file's
node enumeration order (not the first). -/
theorem c4_amended_last_equidistant_wins (nodes : List GNode) (ann : Annot)
    (h : nodes ≠ []) (c : GNode) (st : Option GNode)
    (hok : linked_node none DocType.NODE nodes ann = Except.ok (c, st)) :
    st = some c ∧
    (∀ x ∈ nodes, get_distance_sq c ann ≤ get_distance_sq x ann) ∧
    (nodes.filter (fun x =>
      decide (get_distance_sq x ann = get_distance_sq c ann))).getLast?
      = some c := by
  obtain ⟨c', hok', hmem, hmin, hlast⟩ := linked_node_ok_of_nonempty nodes ann h
  rw [hok'] at hok
  injection hok with hpair
  injection hpair with h1 h2
  subst h1
  subst h2
  exact ⟨rfl, hmin, hlast⟩

/-- Witness for C4's amended statement on the two equidistant nodes. -/
theorem c4_amended_last_equidistant_wins_witness :
    (some (⟨2, -1, 0⟩ : GNode) = some ⟨2, -1, 0⟩) ∧
    (∀ x ∈ [(⟨1, 1, 0⟩ : GNode), ⟨2, -1, 0⟩],
      get_distance_sq ⟨2, -1, 0⟩ ⟨0, 0⟩ ≤ get_distance_sq x ⟨0, 0⟩) ∧
    ([(⟨1, 1, 0⟩ : GNode), ⟨2, -1, 0⟩].filter (fun x =>
      decide (get_distance_sq x ⟨0, 0⟩ =
        get_distance_sq (⟨2, -1, 0⟩ : GNode) ⟨0, 0⟩))).getLast?
      = some ⟨2, -1, 0⟩ :=
  c4_amended_last_equidistant_wins [⟨1, 1, 0⟩, ⟨2, -1, 0⟩] ⟨0, 0⟩
    (by simp) ⟨2, -1, 0⟩ (some ⟨2, -1, 0⟩)
    (by
      norm_num [linked_node, linked_fold, linked_step, get_distance_sq, pymin]
      intro hc
      exact absurd hc (by decide))

/-- C9.  Orphaned-annotation failure: with an empty candidate node list,
`linked_node` raises (`AttributeError`) instead of returning a node — the
loop never sets `_closest`.  (The error *message*, however, interpolates
the bound `content` method object, `f'No cloeset Node found for
{self.content}'`, not the annotation's text.) -/
theorem c9_orphaned_annotation_error : ∀ ann : Annot,
    linked_node none DocType.NODE [] ann =
      Except.error LinkError.noClosestNode := by
  intro ann
  simp only [linked_node]
  rw [if_neg (by decide)]
  rfl

/-- C10.  Linkage caching: any successful `linked_node` call stores the
returned node in `_closest`, and every subsequent call — with *any* node
list and doc type — returns that identical node and state without
re-examining the list: calling twice equals calling once. -/
theorem c10_linked_node_caching (cached : Option GNode) (dt : DocType)
    (nodes : List GNode) (ann : Annot) (n : GNode) (st : Option GNode)
    (h : linked_node cached dt nodes ann = Except.ok (n, st)) :
    st = some n ∧
    ∀ (nodes' : List GNode) (dt' : DocType),
      linked_node st dt' nodes' ann = Except.ok (n, st) := by
  have hst : st = some n := by
    cases cached with
    | some m =>
      simp only [linked_node] at h
      injection h with hpair
      injection hpair with h1 h2
      rw [← h2, ← h1]
    | none =>
      simp only [linked_node] at h
      by_cases hdt : dt = DocType.HEADING
      · rw [if_pos hdt] at h
        exact absurd h (by simp)
      · rw [if_neg hdt] at h
        cases hfold : (linked_fold ann nodes).2 with
        | none =>
          rw [hfold] at h
          exact absurd h (by simp)
        | some c =>
          rw [hfold] at h
          injection h with hpair
          injection hpair with h1 h2
          rw [← h2, ← h1]
  subst hst
  exact ⟨rfl, fun nodes' dt' => rfl⟩

/-- Witness for C10: a successful first call on one node, then a second
call with a *different* (empty) node list returns the same node. -/
theorem c10_linked_node_caching_witness :
    some (⟨7, 2, 3⟩ : GNode) = some ⟨7, 2, 3⟩ ∧
    ∀ (nodes' : List GNode) (dt' : DocType),
      linked_node (some ⟨7, 2, 3⟩) dt' nodes' ⟨0, 0⟩ =
        Except.ok (⟨7, 2, 3⟩, some ⟨7, 2, 3⟩) :=
  c10_linked_node_caching none DocType.NODE [⟨7, 2, 3⟩] ⟨0, 0⟩
    ⟨7, 2, 3⟩ (some ⟨7, 2, 3⟩)
    (by
      norm_num [linked_node, linked_fold, linked_step, get_distance_sq, pymin]
      intro hc
      exact absurd hc (by decide))

/-- C8.  Empty-subtree suppression: for a model with an empty external
dependency list, `ExternalDependenciesDocs.has_content` is false and
`content(level)` emits no lines at all — in particular no heading line —
whatever the inherited body, the child templates and the level are. -/
theorem c8_empty_subtree_suppression (externals : List ExternalDependency)
    (h : externals = []) :
    external_deps_has_content externals = false ∧
    ∀ (own_body : Nat → List String) (child_flags : List Bool)
      (child_doc : Nat → ExternalDependency → List String) (level : Nat),
      external_deps_content externals own_body child_flags child_doc level
        = [] := by
  subst h
  refine ⟨rfl, ?_⟩
  intro own_body child_flags child_doc level
  rw [external_deps_content, adoc_content]
  simp [external_deps_has_content, external_deps_child_content,
    strip_empty, strip_starting_empty, strip_ending_empty, is_content]

/-- Witness for C8 with a non-trivial body, child flag and level. -/
theorem c8_empty_subtree_suppression_witness :
    external_deps_has_content [] = false ∧
    external_deps_content [] (fun _ => ["Inhalt"]) [true]
      (fun _ _ => ["x"]) 2 = [] :=
  ⟨(c8_empty_subtree_suppression [] rfl).1,
    (c8_empty_subtree_suppression [] rfl).2 (fun _ => ["Inhalt"]) [true]
      (fun _ _ => ["x"]) 2⟩

lemma get_row_startswith (v : String) :
    pyStartswith "|" (get_row v) = true := by
  rw [get_row, pyStartswith, string_data_append]
  rw [show (("|" : String)).data = ['|'] from rfl]
  simp [isPre]

lemma as_table_startswith (headings : List String)
    (rows : List (List String)) :
    ∀ line ∈ as_table (some headings) rows,
      pyStartswith "|" line = true := by
  intro line hline
  rw [as_table] at hline
  rcases List.mem_append.mp hline with h | h
  · by_cases hh : 0 < headings.length
    · rw [if_pos hh] at h
      simp only [List.mem_cons, List.not_mem_nil, or_false] at h
      rcases h with rfl | rfl
      · exact get_row_startswith _
      · exact get_row_startswith _
    · rw [if_neg hh] at h
      exact absurd h (List.not_mem_nil _)
  · obtain ⟨r, _, rfl⟩ := List.mem_map.mp h
    exact get_row_startswith _

lemma table_end_aux_all (i : Nat) (suf : List String)
    (hall : ∀ l ∈ suf, pyStartswith "|" l = true) :
    table_end_aux i suf = i + suf.length := by
  induction suf generalizing i with
  | nil => simp [table_end_aux]
  | cons l rest ih =>
    rw [table_end_aux, if_pos (hall l (List.mem_cons_self l rest))]
    rw [ih (i + 1) (fun x hx => hall x (List.mem_cons_of_mem l hx))]
    simp
    omega

lemma table_end_all (lines : List String)
    (hall : ∀ l ∈ lines, pyStartswith "|" l = true) (i : Nat) :
    table_end lines i = lines.length := by
  rw [table_end]
  by_cases h : lines.length ≤ i
  · rw [if_pos h]
  · rw [if_neg h, table_end_aux_all i _
      (fun l hl => hall l (List.mem_of_mem_drop hl))]
    rw [List.length_drop]
    omega

lemma pyStartswith_bar_lstrip {l : String}
    (h : pyStartswith "|" l = true) :
    pyStartswith "|" (pyLstrip l) = true := by
  obtain ⟨t, ht⟩ := (isPre_iff _ _).mp h
  rw [show (("|" : String)).data = ['|'] from rfl] at ht
  rw [pyStartswith, pyLstrip]
  show isPre ("|" : String).data (lstripL l.data) = true
  rw [show (("|" : String)).data = ['|'] from rfl, ht, lstripL,
    List.singleton_append, List.dropWhile_cons]
  simp [isPre, show isWS '|' = false from by decide]

lemma table_ranges_all_bar (lines : List String) (hne : lines ≠ [])
    (hall : ∀ l ∈ lines, pyStartswith "|" l = true) :
    table_ranges lines = some [(0, lines.length)] := by
  cases lines with
  | nil => exact absurd rfl hne
  | cons a as =>
    rw [table_ranges]
    have hlen : (a :: as).length + 1 = (as.length + 1) + 1 := by simp
    rw [hlen, table_ranges_loop]
    have h0 : 0 < (a :: as).length := by simp
    rw [dif_pos h0]
    have hbar : pyStartswith "|" (pyLstrip ((a :: as).get ⟨0, h0⟩)) = true :=
      pyStartswith_bar_lstrip (hall _ (List.get_mem _ _ _))
    rw [hbar]
    simp only [Bool.not_true, Bool.false_eq_true, if_false]
    have hend : table_end (a :: as) 0 = (a :: as).length :=
      table_end_all (a :: as) hall 0
    rw [hend]
    have hfl : as.length + 1 = as.length + 1 := rfl
    rw [table_ranges_loop]
    rw [dif_neg (by omega)]
    simp

/-- C7.  Table round-trip: for every non-empty header list and non-empty
row list, every line emitted by `as_table` begins with the column
separator `'|'`, and `table_ranges` on exactly the emitted lines returns
the single range covering all of them; in particular
`as_table(["A","B"], [["x","y"]])` produces the header row, the separator
row and one data row, and `table_ranges` on them yields exactly
`[(0, 3)]`. -/
theorem c7_table_roundtrip (headings : List String)
    (rows : List (List String)) (h1 : headings ≠ []) (h2 : rows ≠ []) :
    (∀ line ∈ as_table (some headings) rows,
      pyStartswith "|" line = true) ∧
    table_ranges (as_table (some headings) rows) =
      some [(0, (as_table (some headings) rows).length)] ∧
    as_table (some ["A", "B"]) [["x", "y"]] =
      ["| A | B |", "|---+---|", "| x | y |"] ∧
    table_ranges (as_table (some ["A", "B"]) [["x", "y"]]) =
      some [(0, 3)] := by
  refine ⟨as_table_startswith headings rows, ?_, by decide, by decide⟩
  have hne : as_table (some headings) rows ≠ [] := by
    rw [as_table, if_pos (List.length_pos.mpr h1)]
    simp
  exact table_ranges_all_bar _ hne (as_table_startswith headings rows)

/-- Witness for C7 at the claim's own example. -/
theorem c7_table_roundtrip_witness :
    as_table (some ["A", "B"]) [["x", "y"]] =
      ["| A | B |", "|---+---|", "| x | y |"] ∧
    table_ranges (as_table (some ["A", "B"]) [["x", "y"]]) =
      some [(0, 3)] ∧
    table_ranges (as_table (some ["A", "B"]) [["x", "y"]]) =
      some [(0, (as_table (some ["A", "B"]) [["x", "y"]]).length)] :=
  ⟨(c7_table_roundtrip ["A", "B"] [["x", "y"]] (by simp) (by simp)).2.2.1,
    (c7_table_roundtrip ["A", "B"] [["x", "y"]] (by simp) (by simp)).2.2.2,
    (c7_table_roundtrip ["A", "B"] [["x", "y"]] (by simp) (by simp)).2.1⟩

/-- Witness for C9 at a concrete annotation position. -/
theorem c9_orphaned_annotation_error_witness :
    linked_node none DocType.NODE [] ⟨3, 4⟩ =
      Except.error LinkError.noClosestNode :=
  c9_orphaned_annotation_error ⟨3, 4⟩
